import Mathlib

/-!
Verification development for the xtgeo corner-point grid geometry engine
(`src/xtgeo/grid3d/grid.py`).  The Python class `Grid` is a thin wrapper over
C routines reached through the `_cxtgeo` SWIG module; the C routines are not
part of the repository sources, so they are modelled from the specification
(each such definition carries a doc comment starting with
"Modelled from the spec:").  Everything else is translated directly from the
Python source.

Numbers: the C double arrays are modelled as lists of rationals, the C int
ACTNUM array as a list of booleans (the source only ever stores 0 or 1 in it,
and reads it through `np.flatnonzero` / a zero test).  A Python `None` SWIG
pointer is modelled as the empty list.  Python in-place mutation plus possible
exception is modelled by returning the new `Grid` state together with an
optional raised error: the returned state is the state of the object at the
time the call finishes or the exception propagates.
-/

namespace XTGeo

/-- Kinds of Python exception raised by the methods under study
(`ValueError` in `inactivate_by_dz`, `IndexError` in the `props` setter,
`RuntimeWarning` in `inactivate_inside`, bare `Exception` in
`translate_coordinates`). -/
inductive PyErr where
  | valueError : PyErr
  | indexError : PyErr
  | runtimeWarning : PyErr
  | exception : PyErr
deriving DecidableEq

/-- A Python numeric-or-other argument, used for the `threshold` argument of
`inactivate_by_dz`: the source tests `isinstance(threshold, int)` and
`isinstance(threshold, float)`. -/
inductive PyNum where
  | pyInt : Int → PyNum
  | pyFloat : Rat → PyNum
  | pyOther : PyNum
deriving DecidableEq

/-- A grid property object as far as the `Grid.props` setter inspects it:
its dimensions `ncol`, `nrow`, `nlay` and its `name`
(from `grid.py`, lines 119-127). -/
structure GridProperty where
  ncol : Nat
  nrow : Nat
  nlay : Nat
  name : String
deriving DecidableEq

/-- The state of a `Grid` instance (`grid.py`, `Grid.__init__`):
dimensions `_ncol/_nrow/_nlay`, subgrid count `_nsubs`, the three flat
arrays behind the SWIG pointers `_p_coord_v` / `_p_zcorn_v` / `_p_actnum_v`,
the cached active-cell count `_nactive`, the lazily computed index cache
`_actnum_indices`, and the attached property list `_props`. -/
structure Grid where
  ncol : Nat
  nrow : Nat
  nlay : Nat
  nsubs : Nat
  coord : List Rat
  zcorn : List Rat
  actnum : List Bool
  nactive : Int
  actnumIndicesCache : Option (List Nat)
  props : List GridProperty
deriving DecidableEq

/-- The default-constructed `Grid()` (`grid.py`, lines 53-84): dimensions
4 x 3 x 5, no subgrids, the three SWIG pointers are `None` (modelled as empty
arrays), `_nactive` is the sentinel `-999`, the index cache is unset and no
properties are attached. -/
def defaultGrid : Grid :=
  { ncol := 4, nrow := 3, nlay := 5, nsubs := 0,
    coord := [], zcorn := [], actnum := [],
    nactive := -999, actnumIndicesCache := none, props := [] }

/-- `Grid.ntotal` (`grid.py`, lines 104-107): total number of cells. -/
def Grid.ntotal (g : Grid) : Nat := g.ncol * g.nrow * g.nlay

/-- Well-formedness of a populated grid: the three flat arrays have the sizes
the spec requires (`len(actnum) = ncol*nrow*nlay`,
`len(zcorn) = ncol*nrow*(nlay+1)*4`, `len(coord) = (ncol+1)*(nrow+1)*2*3`). -/
def Grid.wf (g : Grid) : Prop :=
  g.actnum.length = g.ncol * g.nrow * g.nlay ∧
  g.zcorn.length = g.ncol * g.nrow * (g.nlay + 1) * 4 ∧
  g.coord.length = (g.ncol + 1) * (g.nrow + 1) * 2 * 3

instance (g : Grid) : Decidable g.wf := by
  unfold Grid.wf; infer_instance

/-- `Grid.nactive` (`grid.py`, lines 90-93): returns the cached `_nactive`
field as-is. -/
def Grid.nactiveRead (g : Grid) : Int := g.nactive

/-- The linear (flattened, Fortran-order) cell index of 0-based `(a, b, c)`:
`a + ncol * (b + nrow * c)`; the single indexing convention shared by all
arrays (spec section 3). -/
def cellIdx (g : Grid) (a b c : Nat) : Nat := a + g.ncol * (b + g.nrow * c)

/-- Number of set entries of the ACTNUM array, i.e. `sum(active_mask)` for a
0/1 mask. -/
def sumActnum (l : List Bool) : Nat := l.count true

/-- `np.flatnonzero` on the ACTNUM values (`grid.py`, line 100): the
ascending list of indices holding a nonzero (true) entry. -/
def flatnonzero (l : List Bool) : List Nat :=
  (List.range l.length).filter (fun i => l.getD i false)

/-- The `Grid.actnum_indices` property (`grid.py`, lines 95-102): on first
access computes `np.flatnonzero(actnum.values)` and stores it in
`_actnum_indices`; afterwards returns the stored array unchanged.  Returns
the value together with the (possibly updated) object state. -/
def actnumIndicesRead (g : Grid) : List Nat × Grid :=
  match g.actnumIndicesCache with
  | some l => (l, g)
  | none =>
      (flatnonzero g.actnum,
       { g with actnumIndicesCache := some (flatnonzero g.actnum) })

/-- Modelled from the spec: the sentinel value marking undefined geometry
(`undef` in spec section 3; `_cxtgeo.UNDEF` in the source). -/
def UNDEF : Rat := 10 ^ 33

/-- Modelled from the spec: position of corner `corner` (0..3) of footprint
`(a, b)` (0-based) at layer boundary `kb` (0..nlay) inside the flat zcorn
array of size `ncol*nrow*(nlay+1)*4`, using the fixed linear convention of
spec section 3. -/
def zcornIdx (g : Grid) (a b kb corner : Nat) : Nat :=
  4 * (a + g.ncol * (b + g.nrow * kb)) + corner

/-- Depth value read from the zcorn array. -/
def zAt (g : Grid) (a b kb corner : Nat) : Rat :=
  g.zcorn.getD (zcornIdx g a b kb corner) 0

/-- A pillar: two 3D points (top, bottom) defining the line along which cell
corners are interpolated (spec section 3). -/
structure Pillar where
  xt : Rat
  yt : Rat
  zt : Rat
  xb : Rat
  yb : Rat
  zb : Rat

/-- Modelled from the spec: the pillar at 0-based pillar coordinates
`(pa, pb)`, `pa <= ncol`, `pb <= nrow`, read from the flat coord array of
size `(ncol+1)*(nrow+1)*6` (6 consecutive components per pillar). -/
def pillarAt (g : Grid) (pa pb : Nat) : Pillar :=
  let base := 6 * (pa + (g.ncol + 1) * pb)
  { xt := g.coord.getD base 0, yt := g.coord.getD (base + 1) 0,
    zt := g.coord.getD (base + 2) 0, xb := g.coord.getD (base + 3) 0,
    yb := g.coord.getD (base + 4) 0, zb := g.coord.getD (base + 5) 0 }

/-- Modelled from the spec (section 4.3, numeric policy): linear
interpolation of a pillar line at a requested depth; a depth outside the
pillar top/bottom range, or a degenerate (zero-length) pillar at another
depth, resolves to the undefined sentinel instead of extrapolating. -/
def interpPillar (p : Pillar) (z : Rat) : Rat × Rat × Rat :=
  if p.zb = p.zt then
    (if z = p.zt then (p.xt, p.yt, z) else (UNDEF, UNDEF, UNDEF))
  else if min p.zt p.zb ≤ z ∧ z ≤ max p.zt p.zb then
    let t := (z - p.zt) / (p.zb - p.zt)
    (p.xt + t * (p.xb - p.xt), p.yt + t * (p.yb - p.yt), z)
  else (UNDEF, UNDEF, UNDEF)

/-- The 0-based pillar of corner `corner` (0..3) of footprint `(a, b)`:
corners 0..3 run over the footprint as (a,b), (a+1,b), (a,b+1), (a+1,b+1),
matching the 1/2/3/4 numbering in the `get_xyz_cell_corners` docstring. -/
def cornerPillar (a b corner : Nat) : Nat × Nat :=
  match corner with
  | 0 => (a, b)
  | 1 => (a + 1, b)
  | 2 => (a, b + 1)
  | _ => (a + 1, b + 1)

/-- Modelled from the spec: one 3D corner point of the cell with footprint
`(a, b)` at boundary `kb`, obtained by interpolating the corner pillar at the
zcorn depth of that corner. -/
def cornerPoint (g : Grid) (a b kb corner : Nat) : Rat × Rat × Rat :=
  let pij := cornerPillar a b corner
  interpPillar (pillarAt g pij.1 pij.2) (zAt g a b kb corner)

/-- Flatten a 3D point into its coordinate list (projection form, so the list
shape is visible without evaluating the point). -/
def tripleToList (p : Rat × Rat × Rat) : List Rat := [p.1, p.2.1, p.2.2]

/-- Modelled from the spec: the C routine `grd3d_corners` (not in src).
For 1-based cell `(i, j, k)` it produces the 24 values
(x1, y1, z1, ..., x8, y8, z8): corners 1..4 on the top face (boundary k-1)
and 5..8 on the base face (boundary k), each by pillar interpolation. -/
def grd3d_corners (g : Grid) (i j k : Nat) : List Rat :=
  ((List.range 4).flatMap
      (fun c => tripleToList (cornerPoint g (i - 1) (j - 1) (k - 1) c))) ++
  ((List.range 4).flatMap
      (fun c => tripleToList (cornerPoint g (i - 1) (j - 1) k c)))

/-- `Grid.get_xyz_cell_corners` (`grid.py`, lines 517-576): for 1-based
`(i, j, k)`, when `mask is True` the ACTNUM entry of the cell is read first
and `None` is returned for an inactive cell; in every other case the 24
corner values computed by `grd3d_corners` are returned. -/
def get_xyz_cell_corners (g : Grid) (i j k : Nat) (mask : Bool) :
    Option (List Rat) :=
  if mask = true ∧ g.actnum.getD (cellIdx g (i - 1) (j - 1) (k - 1)) false = false
  then none
  else some (grd3d_corners g i j k)

/-- Modelled from the spec (section 4.3, `cell_dz`): the thickness of 0-based
cell `(a, b, c)` as the average of the four vertical corner-to-corner depth
differences between boundary `c+1` and boundary `c`. -/
def cellDz (g : Grid) (a b c : Nat) : Rat :=
  ((zAt g a b (c + 1) 0 - zAt g a b c 0) +
   (zAt g a b (c + 1) 1 - zAt g a b c 1) +
   (zAt g a b (c + 1) 2 - zAt g a b c 2) +
   (zAt g a b (c + 1) 3 - zAt g a b c 3)) / 4

/-- Thickness of the cell with linear index `idx`, decomposing the index by
the fixed convention. -/
def dzOfIdx (g : Grid) (idx : Nat) : Rat :=
  cellDz g (idx % g.ncol) ((idx / g.ncol) % g.nrow) (idx / (g.ncol * g.nrow))

/-- Modelled from the spec: the C routine `grd3d_inact_by_dz` (not in src).
For every cell of the grid, compute the (flip-adjusted) unmasked thickness;
when it is below the threshold the ACTNUM entry becomes 0, otherwise it keeps
its current value (spec section 4.4, `deactivate_thin_cells`). -/
def grd3d_inact_by_dz (g : Grid) (threshold : Rat) (nflip : Int) : List Bool :=
  (List.range (g.ncol * g.nrow * g.nlay)).map (fun idx =>
    if (nflip : Rat) * dzOfIdx g idx < threshold then false
    else g.actnum.getD idx false)

/-- `Grid.inactivate_by_dz` (`grid.py`, lines 748-765): an `int` threshold is
coerced to `float`; a threshold that is then not a `float` raises
`ValueError` before the C call, leaving the object untouched; otherwise the
C routine rewrites the ACTNUM array in place with `nflip = 1`.  Neither
`_nactive` nor `_actnum_indices` is touched by this method. -/
def inactivate_by_dz (g : Grid) (threshold : PyNum) : Grid × Option PyErr :=
  match threshold with
  | PyNum.pyInt n => ({ g with actnum := grd3d_inact_by_dz g (n : Rat) 1 }, none)
  | PyNum.pyFloat q => ({ g with actnum := grd3d_inact_by_dz g q 1 }, none)
  | PyNum.pyOther => (g, some PyErr.valueError)

/-- A polygon: a list of (x, y) vertices.  A `Polygons` object may consist of
several polygons (`inactivate_inside` docstring); the dataframe handed to the
C routine separates them with 999 sentinel rows, modelled here as a list of
vertex lists. -/
abbrev Poly : Type := List (Rat × Rat)

/-- The polygon set handed to `inactivate_inside`. -/
abbrev Polys : Type := List (List (Rat × Rat))

/-- A polygon is closed when its first vertex equals its last. -/
def isClosedPoly (p : Poly) : Bool :=
  match p with
  | [] => true
  | q :: _ => decide ((q :: p.tail).getLast? = some q)

/-- Close an open polygon by appending its first vertex (what the
`force_close` flag synthesizes, spec section 4.4). -/
def closePoly (p : Poly) : Poly :=
  if isClosedPoly p then p else
    match p with
    | [] => []
    | q :: _ => p ++ [q]

/-- Modelled from the spec: even-odd ray-casting point-in-polygon test on a
closed vertex list, counting crossings of the horizontal ray towards +x. -/
def pointInPoly (pt : Rat × Rat) (p : Poly) : Bool :=
  (p.zip p.tail).foldl (fun acc e =>
    let x1 := e.1.1; let y1 := e.1.2; let x2 := e.2.1; let y2 := e.2.2
    if (decide (y1 > pt.2) != decide (y2 > pt.2)) &&
       decide (pt.1 < x1 + (pt.2 - y1) * (x2 - x1) / (y2 - y1))
    then !acc else acc) false

/-- Modelled from the spec: the representative point of the footprint
`(a, b)` used for the inside/outside test — the mean of the four footprint
pillar top positions (spec section 4.4: footprint center or a representative
point). -/
def footprintCenter (g : Grid) (a b : Nat) : Rat × Rat :=
  let p00 := pillarAt g a b
  let p10 := pillarAt g (a + 1) b
  let p01 := pillarAt g a (b + 1)
  let p11 := pillarAt g (a + 1) (b + 1)
  ((p00.xt + p10.xt + p01.xt + p11.xt) / 4,
   (p00.yt + p10.yt + p01.yt + p11.yt) / 4)

/-- A polygon is usable by the C routine when it is closed or closure is
forced (spec section 4.4: an unclosed polygon without force-close is
malformed). -/
def polyValid (iforce : Bool) (p : Poly) : Bool := iforce || isClosedPoly p

/-- Modelled from the spec: the C routine `grd3d_inact_outside_pol` (not in
src).  For cells whose 1-based layer lies in `[k1, k2]`, the ACTNUM entry
becomes 0 when the footprint center lies inside some valid polygon
(`methodOutside = false`) or inside no valid polygon (`methodOutside =
true`); other entries keep their value.  The status result is 1 when the set
contained a malformed polygon (which is skipped), else 0. -/
def grd3d_inact_outside_pol (g : Grid) (polys : Polys) (k1 k2 : Nat)
    (iforce : Bool) (methodOutside : Bool) : List Bool × Nat :=
  let valids := polys.filter (polyValid iforce)
  let newAct := (List.range (g.ncol * g.nrow * g.nlay)).map (fun idx =>
    let c := idx / (g.ncol * g.nrow)
    if k1 ≤ c + 1 ∧ c + 1 ≤ k2 then
      let center := footprintCenter g (idx % g.ncol) ((idx / g.ncol) % g.nrow)
      let isIn := valids.any (fun p => pointInPoly center (closePoly p))
      if (if methodOutside then !isIn else isIn) then false
      else g.actnum.getD idx false
    else g.actnum.getD idx false)
  (newAct, if polys.any (fun p => !polyValid iforce p) then 1 else 0)

/-- `Grid.inactivate_inside` (`grid.py`, lines 767-821): the layer range
defaults to `(1, nlay)`; `inside` selects method 0 (deactivate inside) or 1
(deactivate outside); `force_close` sets the iforce flag.  The C routine
rewrites ACTNUM in place; afterwards, if its status is 1 a `RuntimeWarning`
is raised — the mutation performed so far is retained on the object. -/
def inactivate_inside (g : Grid) (polys : Polys)
    (layerRange : Option (Nat × Nat)) (inside : Bool) (force_close : Bool) :
    Grid × Option PyErr :=
  let r := match layerRange with
    | some p => p
    | none => (1, g.nlay)
  let res := grd3d_inact_outside_pol g polys r.1 r.2 force_close (!inside)
  ({ g with actnum := res.1 },
   if res.2 = 1 then some PyErr.runtimeWarning else none)

/-- `Grid.inactivate_outside` (`grid.py`, lines 823-826): delegates to
`inactivate_inside` with `inside=False`. -/
def inactivate_outside (g : Grid) (polys : Polys)
    (layerRange : Option (Nat × Nat)) : Grid × Option PyErr :=
  inactivate_inside g polys layerRange false false

/-- Modelled from the spec: the new single-layer zcorn array built by the C
routine `grd3d_reduce_onelayer` (not in src): per footprint, the top
boundary keeps the original boundary-0 depths and the base boundary takes
the original boundary-`nlay` depths (spec section 4.4,
`reduce_to_single_layer`). -/
def reducedZcorn (g : Grid) : List Rat :=
  (List.range (g.ncol * g.nrow * 2 * 4)).map (fun idx =>
    let corner := idx % 4
    let rest := idx / 4
    let a := rest % g.ncol
    let b := (rest / g.ncol) % g.nrow
    let kb := rest / (g.ncol * g.nrow)
    zAt g a b (if kb = 0 then 0 else g.nlay) corner)

/-- Modelled from the spec: the new single-layer ACTNUM built by
`grd3d_reduce_onelayer`: a footprint is active when any of its original
layers was active (spec section 4.4). -/
def reducedActnum (g : Grid) : List Bool :=
  (List.range (g.ncol * g.nrow)).map (fun fidx =>
    (List.range g.nlay).any (fun k =>
      g.actnum.getD (fidx + g.ncol * g.nrow * k) false))

/-- `Grid.reduce_to_one_layer` (`grid.py`, lines 838-877): swaps in the new
zcorn and ACTNUM arrays produced by the C routine, sets `_nlay = 1`, stores
the recomputed active count in `_nactive`, zeroes `_nsubs` and empties
`_props`.  The `_actnum_indices` cache is not reset. -/
def reduce_to_one_layer (g : Grid) : Grid :=
  { g with nlay := 1, zcorn := reducedZcorn g, actnum := reducedActnum g,
           nactive := (sumActnum (reducedActnum g) : Int),
           nsubs := 0, props := [] }

/-- A flip component is valid when it is 1 or -1 (spec section 4.5). -/
def validFlip (f : Int) : Prop := f = 1 ∨ f = -1

instance (f : Int) : Decidable (validFlip f) := by
  unfold validFlip; infer_instance

/-- Modelled from the spec: the C routine `grd3d_translate` (not in src)
transforms every pillar coordinate component `(x, y, z)` to
`(fx*x+tx, fy*y+ty, fz*z+tz)` and every corner depth to `fz*z+tz`; an
invalid flip value makes it return a nonzero status before any mutation
begins (spec section 4.5). -/
def grd3d_translate (g : Grid) (tx ty tz : Rat) (fx fy fz : Int) :
    (List Rat × List Rat) × Nat :=
  if validFlip fx ∧ validFlip fy ∧ validFlip fz then
    (((g.coord.mapIdx (fun idx v =>
        if idx % 3 = 0 then (fx : Rat) * v + tx
        else if idx % 3 = 1 then (fy : Rat) * v + ty
        else (fz : Rat) * v + tz)),
      g.zcorn.map (fun z => (fz : Rat) * z + tz)), 0)
  else ((g.coord, g.zcorn), 1)

/-- `Grid.translate_coordinates` (`grid.py`, lines 882-902): unpacks the
translate and flip tuples, calls the C routine, and raises a bare
`Exception` when its status is nonzero; in that case the arrays are exactly
as they were. -/
def translate_coordinates (g : Grid) (translate : Rat × Rat × Rat)
    (flip : Int × Int × Int) : Grid × Option PyErr :=
  let res := grd3d_translate g translate.1 translate.2.1 translate.2.2
      flip.1 flip.2.1 flip.2.2
  if res.2 ≠ 0 then
    ({ g with coord := res.1.1, zcorn := res.1.2 }, some PyErr.exception)
  else ({ g with coord := res.1.1, zcorn := res.1.2 }, none)

/-- The `Grid.props` setter (`grid.py`, lines 119-127): walks the supplied
list and raises `IndexError` at a property whose `ncol`, `nrow` or `nlay`
differs from the grid; only when every property matches is `_props`
assigned, so on error the previously attached list is unchanged. -/
def propsSet (g : Grid) (plist : List GridProperty) : Grid × Option PyErr :=
  if plist.any (fun p =>
      p.ncol != g.ncol || p.nrow != g.nrow || p.nlay != g.nlay) then
    (g, some PyErr.indexError)
  else ({ g with props := plist }, none)

/-!
Concrete grids used as witnesses and counterexamples.
-/

/-- A populated, well-formed 1 x 1 x 1 grid as it stands right after an
import: four vertical unit-square pillars from depth 0 to depth 10, one cell
between depths 0 and 2 (thickness 2), the single cell active, and
`_nactive = 1` consistent with the mask. -/
def g1 : Grid :=
  { ncol := 1, nrow := 1, nlay := 1, nsubs := 0,
    coord := [0, 0, 0, 0, 0, 10,
              1, 0, 0, 1, 0, 10,
              0, 1, 0, 0, 1, 10,
              1, 1, 0, 1, 1, 10],
    zcorn := [0, 0, 0, 0, 2, 2, 2, 2],
    actnum := [true], nactive := 1,
    actnumIndicesCache := none, props := [] }

/-- The state of `g1` after its `actnum_indices` property has been read
once: the index cache now holds the single active index 0. -/
def g1c : Grid := { g1 with actnumIndicesCache := some [0] }

/-- The state of `g1c` after `inactivate_by_dz(5.0)`: the single cell of
thickness 2 is below the threshold, so the mask becomes all-inactive while
`_nactive` and the index cache keep their old values. -/
def g2 : Grid := (inactivate_by_dz g1c (PyNum.pyFloat 5)).1

/-- The state of `g1` after `inactivate_by_dz(5.0)` (no prior cache read). -/
def g3 : Grid := (inactivate_by_dz g1 (PyNum.pyFloat 5)).1

/-!
Helper lemmas.
-/

/-- The single cell of `g1` has thickness 2. -/
theorem g1_dz : dzOfIdx g1 0 = 2 := by
  norm_num [dzOfIdx, cellDz, zAt, zcornIdx, g1]

/-- Deactivation of `g1` by threshold 5 clears its one-cell mask. -/
theorem g1_inact : grd3d_inact_by_dz g1 5 1 = [false] := by
  have hr : g1.ncol * g1.nrow * g1.nlay = 1 := rfl
  rw [grd3d_inact_by_dz, hr]
  rw [show List.range 1 = [0] from rfl, List.map_cons, List.map_nil]
  rw [if_pos (by rw [Int.cast_one, one_mul, g1_dz]; norm_num)]

/-- The same evaluation on the cached variant `g1c` (identical geometry). -/
theorem g1c_inact : grd3d_inact_by_dz g1c 5 1 = [false] := g1_inact

/-- `g2` spelled out as a record. -/
theorem g2_eq : g2 = { g1 with actnumIndicesCache := some [0], actnum := [false] } := by
  show (inactivate_by_dz g1c (PyNum.pyFloat 5)).1 = _
  rw [inactivate_by_dz, g1c_inact]
  rfl

/-- `g3` spelled out as a record. -/
theorem g3_eq : g3 = { g1 with actnum := [false] } := by
  show (inactivate_by_dz g1 (PyNum.pyFloat 5)).1 = _
  rw [inactivate_by_dz, g1_inact]

/-- Reading a list back from its indices: mapping `getD` over the index
range reproduces the list. -/
theorem map_getD_range (l : List Bool) :
    (List.range l.length).map (fun i => l.getD i false) = l := by
  induction l with
  | nil => rfl
  | cons a t ih =>
      rw [List.length_cons, List.range_succ_eq_map, List.map_cons, List.map_map,
          show ((fun i => (a :: t).getD i false) ∘ Nat.succ) =
            (fun i => t.getD i false) from rfl, ih]
      rfl

/-- The corner list returned by the modelled `grd3d_corners` always has 24
entries. -/
theorem grd3d_corners_length (g : Grid) (i j k : Nat) :
    (grd3d_corners g i j k).length = 24 := rfl

/-!
Claim theorems.
-/

/-- Claim C1 (code bug): after the mutating operation `inactivate_by_dz`
the active-cell count returned by the `nactive` accessor is NOT equal to the
sum of the current ACTNUM array.  On the well-formed one-cell grid `g1`
(one active cell, consistent cached count 1, cell thickness 2), the call
`inactivate_by_dz(5.0)` succeeds and clears the mask, yet `nactive` still
returns the stale cached value 1 while the mask sums to 0: the method never
updates `_nactive`. -/
theorem C1_nactive_stale_after_inactivate_by_dz :
    g1.wf ∧ g1.nactiveRead = (sumActnum g1.actnum : Int) ∧
    (inactivate_by_dz g1 (PyNum.pyFloat 5)).2 = none ∧
    g3.actnum = [false] ∧ sumActnum g3.actnum = 0 ∧
    g3.nactiveRead = 1 ∧
    g3.nactiveRead ≠ (sumActnum g3.actnum : Int) := by
  refine ⟨by decide, by decide, rfl, ?_, ?_, ?_, ?_⟩
  · rw [g3_eq]
  · rw [g3_eq]; rfl
  · rw [g3_eq]; rfl
  · rw [g3_eq]; decide

/-- Claim C2 (counterexample): the `actnum_indices` cache is NOT invalidated
by operations that mutate the active mask.  On `g2` — the one-cell grid
whose index cache was filled (with `[0]`) before `inactivate_by_dz(5.0)`
cleared the mask — a read of `actnum_indices` still returns the stale `[0]`
although `np.flatnonzero` of the current mask is empty. -/
theorem C2_stale_actnum_indices_counterexample :
    g2.actnum = [false] ∧ flatnonzero g2.actnum = [] ∧
    (actnumIndicesRead g2).1 = [0] ∧
    (actnumIndicesRead g2).1 ≠ flatnonzero g2.actnum := by
  rw [g2_eq]
  refine ⟨rfl, rfl, rfl, by decide⟩

/-- Claim C2 (amended): `actnum_indices` computes, on first access (cache
unset), exactly the ascending sequence of linear indices at which the active
mask is set, and caches it; but no operation that replaces or mutates the
active mask invalidates the cache — `inactivate_by_dz`,
`inactivate_inside`, `inactivate_outside` and `reduce_to_one_layer` all
leave the `_actnum_indices` field untouched, so a later read can observe a
stale sequence. -/
theorem C2_actnum_indices_amended (g : Grid) :
    (g.actnumIndicesCache = none →
      (actnumIndicesRead g).1 = flatnonzero g.actnum ∧
      (flatnonzero g.actnum).Pairwise (· < ·) ∧
      (∀ i, i ∈ flatnonzero g.actnum ↔
        i < g.actnum.length ∧ g.actnum.getD i false = true)) ∧
    (∀ t, ((inactivate_by_dz g t).1).actnumIndicesCache =
      g.actnumIndicesCache) ∧
    (∀ polys lr inside fc,
      ((inactivate_inside g polys lr inside fc).1).actnumIndicesCache =
        g.actnumIndicesCache) ∧
    (∀ polys lr,
      ((inactivate_outside g polys lr).1).actnumIndicesCache =
        g.actnumIndicesCache) ∧
    ((reduce_to_one_layer g).actnumIndicesCache = g.actnumIndicesCache) := by
  have hin : ∀ polys lr inside fc,
      ((inactivate_inside g polys lr inside fc).1).actnumIndicesCache =
        g.actnumIndicesCache := by
    intro polys lr inside fc
    simp only [inactivate_inside]
  refine ⟨?_, ?_, hin, ?_, rfl⟩
  · intro h
    refine ⟨by simp [actnumIndicesRead, h], ?_, ?_⟩
    · exact List.Pairwise.sublist (List.filter_sublist _)
        (List.pairwise_lt_range _)
    · intro i
      simp [flatnonzero, List.mem_filter, List.mem_range]
  · intro t
    cases t <;> rfl
  · intro polys lr
    exact hin polys lr false false

/-- Claim C2 (witness for the amended theorem), instantiated on the concrete
grid `g1` whose cache is unset, with each mutating operation applied to it
at concrete arguments. -/
theorem C2_actnum_indices_amended_witness :
    (actnumIndicesRead g1).1 = flatnonzero g1.actnum ∧
    ((inactivate_by_dz g1 (PyNum.pyFloat 5)).1).actnumIndicesCache =
      g1.actnumIndicesCache ∧
    ((inactivate_inside g1 [[(5, 5), (6, 5), (6, 6)]] none true
        false).1).actnumIndicesCache = g1.actnumIndicesCache ∧
    ((inactivate_outside g1 [[(5, 5), (6, 5), (6, 6)]]
        none).1).actnumIndicesCache = g1.actnumIndicesCache ∧
    (reduce_to_one_layer g1).actnumIndicesCache = g1.actnumIndicesCache :=
  ⟨((C2_actnum_indices_amended g1).1 rfl).1,
   (C2_actnum_indices_amended g1).2.1 (PyNum.pyFloat 5),
   (C2_actnum_indices_amended g1).2.2.1 [[(5, 5), (6, 5), (6, 6)]] none
     true false,
   (C2_actnum_indices_amended g1).2.2.2.1 [[(5, 5), (6, 5), (6, 6)]] none,
   (C2_actnum_indices_amended g1).2.2.2.2⟩

/-- Claim C3: for an in-range cell of a well-formed grid,
`get_xyz_cell_corners` returns `None` exactly when `mask=True` and the cell
is inactive; in every other case (mask off, or the cell active) it returns a
full 24-element tuple of corner coordinates. -/
theorem C3_cell_corners_mask_policy (g : Grid) (i j k : Nat) (mask : Bool)
    (_hwf : g.wf) (_hi : 1 ≤ i ∧ i ≤ g.ncol) (_hj : 1 ≤ j ∧ j ≤ g.nrow)
    (_hk : 1 ≤ k ∧ k ≤ g.nlay) :
    (get_xyz_cell_corners g i j k mask = none ↔
      mask = true ∧
      g.actnum.getD (cellIdx g (i - 1) (j - 1) (k - 1)) false = false) ∧
    (∀ l, get_xyz_cell_corners g i j k mask = some l → l.length = 24) := by
  unfold get_xyz_cell_corners
  by_cases h : mask = true ∧
      g.actnum.getD (cellIdx g (i - 1) (j - 1) (k - 1)) false = false
  · rw [if_pos h]
    refine ⟨⟨fun _ => h, fun _ => rfl⟩, fun l hl => ?_⟩
    cases hl
  · rw [if_neg h]
    refine ⟨⟨fun hc => ?_, fun hc => absurd hc h⟩, fun l hl => ?_⟩
    · cases hc
    · injection hl with hl
      rw [← hl]
      exact grd3d_corners_length g i j k

/-- Claim C3 (witness): evaluated on the one-cell grid `g1` at cell
(1,1,1): with `mask=False` a 24-element list comes back. -/
theorem C3_cell_corners_mask_policy_witness :
    g1.wf ∧
    (get_xyz_cell_corners g1 1 1 1 false = none ↔
      false = true ∧
      g1.actnum.getD (cellIdx g1 0 0 0) false = false) ∧
    (∀ l, get_xyz_cell_corners g1 1 1 1 false = some l → l.length = 24) :=
  ⟨by decide,
   (C3_cell_corners_mask_policy g1 1 1 1 false (by decide) (by decide)
      (by decide) (by decide)).1,
   (C3_cell_corners_mask_policy g1 1 1 1 false (by decide) (by decide)
      (by decide) (by decide)).2⟩

/-- Claim C4: a threshold that is neither an int nor a float makes
`inactivate_by_dz` fail with the type-error condition (`ValueError`) before
any mutation: the returned state is exactly the input state.  An int
threshold is coerced to float: the call behaves exactly as the corresponding
float call and raises nothing. -/
theorem C4_threshold_type_check (g : Grid) :
    (inactivate_by_dz g PyNum.pyOther = (g, some PyErr.valueError)) ∧
    (∀ n : Int,
      inactivate_by_dz g (PyNum.pyInt n) =
        inactivate_by_dz g (PyNum.pyFloat (n : Rat)) ∧
      (inactivate_by_dz g (PyNum.pyInt n)).2 = none ∧
      (inactivate_by_dz g (PyNum.pyFloat (n : Rat))).2 = none) :=
  ⟨rfl, fun _ => ⟨rfl, rfl, rfl⟩⟩

/-- Claim C4 (witness): evaluated on the concrete grid `g1`. -/
theorem C4_threshold_type_check_witness :
    inactivate_by_dz g1 PyNum.pyOther = (g1, some PyErr.valueError) ∧
    inactivate_by_dz g1 (PyNum.pyInt 5) =
      inactivate_by_dz g1 (PyNum.pyFloat ((5 : Int) : Rat)) :=
  ⟨(C4_threshold_type_check g1).1, ((C4_threshold_type_check g1).2 5).1⟩

/-- Claim C5: after `reduce_to_one_layer`, `nlay` is 1, the cached
active-cell count equals the sum of the new single-layer mask, and the
attached property list is empty. -/
theorem C5_reduce_to_one_layer_postconditions (g : Grid) :
    (reduce_to_one_layer g).nlay = 1 ∧
    (reduce_to_one_layer g).nactiveRead =
      (sumActnum (reduce_to_one_layer g).actnum : Int) ∧
    (reduce_to_one_layer g).props = [] :=
  ⟨rfl, rfl, rfl⟩

/-- Claim C5 (witness): evaluated on the concrete grid `g1`. -/
theorem C5_reduce_to_one_layer_postconditions_witness :
    (reduce_to_one_layer g1).nlay = 1 ∧
    (reduce_to_one_layer g1).nactiveRead =
      (sumActnum (reduce_to_one_layer g1).actnum : Int) ∧
    (reduce_to_one_layer g1).props = [] :=
  C5_reduce_to_one_layer_postconditions g1

/-- Claim C6: a flip tuple containing a value outside {1, -1} makes
`translate_coordinates` fail with the validation-error condition before any
mutation: the returned state (in particular `coord` and `zcorn`) is exactly
the input state. -/
theorem C6_translate_invalid_flip_no_mutation (g : Grid)
    (t : Rat × Rat × Rat) (f : Int × Int × Int)
    (hf : ¬(validFlip f.1 ∧ validFlip f.2.1 ∧ validFlip f.2.2)) :
    translate_coordinates g t f = (g, some PyErr.exception) := by
  unfold translate_coordinates grd3d_translate
  rw [if_neg hf]
  rfl

/-- Claim C6 (witness): flip component 2 is invalid, so the concrete grid
`g1` is returned unchanged together with the raised error. -/
theorem C6_translate_invalid_flip_no_mutation_witness :
    translate_coordinates g1 (10, 20, 30) (2, 1, 1) =
      (g1, some PyErr.exception) :=
  C6_translate_invalid_flip_no_mutation g1 (10, 20, 30) (2, 1, 1) (by decide)

/-- Claim C7: a polygon set containing a malformed (unclosed, without
force-close) polygon makes `inactivate_inside` raise the warning-class
condition `RuntimeWarning`, while the deactivation is still applied for the
valid polygons: the resulting grid state is exactly the state produced by
running the operation on the valid polygons alone (which raises nothing). -/
theorem C7_polygon_warning_valid_applied (g : Grid) (polys : Polys)
    (lr : Option (Nat × Nat)) (inside fc : Bool)
    (hbad : polys.any (fun p => !polyValid fc p) = true) :
    (inactivate_inside g polys lr inside fc).2 = some PyErr.runtimeWarning ∧
    (inactivate_inside g (polys.filter (polyValid fc)) lr inside fc).2 =
      none ∧
    (inactivate_inside g polys lr inside fc).1 =
      (inactivate_inside g (polys.filter (polyValid fc)) lr inside fc).1 := by
  have hgood : (polys.filter (polyValid fc)).any
      (fun p => !polyValid fc p) = false := by
    rw [List.any_eq_false]
    intro p hp
    simp only [List.mem_filter] at hp
    simp [hp.2]
  have hfilt : (polys.filter (polyValid fc)).filter (polyValid fc) =
      polys.filter (polyValid fc) := by
    rw [List.filter_filter]
    congr 1
    funext p
    rw [Bool.and_self]
  unfold inactivate_inside grd3d_inact_outside_pol
  rw [hbad, hgood, hfilt]
  exact ⟨rfl, rfl, rfl⟩

/-- Claim C7 (witness): on `g1` with one valid (closed) square polygon and
one malformed open polyline, without force-close. -/
theorem C7_polygon_warning_valid_applied_witness :
    (inactivate_inside g1 [[(0, 0), (2, 0), (2, 2), (0, 2), (0, 0)],
        [(5, 5), (6, 5), (6, 6)]] none true false).2 =
      some PyErr.runtimeWarning ∧
    (inactivate_inside g1 ([[(0, 0), (2, 0), (2, 2), (0, 2), (0, 0)],
        [(5, 5), (6, 5), (6, 6)]].filter (polyValid false)) none true
        false).2 = none ∧
    (inactivate_inside g1 [[(0, 0), (2, 0), (2, 2), (0, 2), (0, 0)],
        [(5, 5), (6, 5), (6, 6)]] none true false).1 =
      (inactivate_inside g1 ([[(0, 0), (2, 0), (2, 2), (0, 2), (0, 0)],
        [(5, 5), (6, 5), (6, 6)]].filter (polyValid false)) none true
        false).1 :=
  C7_polygon_warning_valid_applied g1 _ none true false (by decide)

/-- Claim C8 (counterexample): `reduce_to_one_layer` on an already
single-layer grid does NOT always leave the active-cell count unchanged.
On `g3` — the one-layer grid whose cached count went stale after
`inactivate_by_dz` cleared its mask — the call rewrites `nactive` from the
stale 1 to the recomputed 0. -/
theorem C8_reduce_idempotence_counterexample :
    g3.nlay = 1 ∧ g3.nactiveRead = 1 ∧
    (reduce_to_one_layer g3).nactiveRead = 0 ∧
    (reduce_to_one_layer g3).nactiveRead ≠ g3.nactiveRead := by
  rw [g3_eq]
  refine ⟨rfl, rfl, by decide, by decide⟩

/-- Claim C8 (amended): on a well-formed single-layer grid,
`reduce_to_one_layer` leaves `ncol`, `nrow`, `nlay` and the mask itself
unchanged, and sets the cached count to the sum of the mask — so the count
too is unchanged provided it was consistent with the mask before the call. -/
theorem C8_reduce_idempotence_amended (g : Grid) (hwf : g.wf)
    (h1 : g.nlay = 1) :
    (reduce_to_one_layer g).ncol = g.ncol ∧
    (reduce_to_one_layer g).nrow = g.nrow ∧
    (reduce_to_one_layer g).nlay = g.nlay ∧
    (reduce_to_one_layer g).actnum = g.actnum ∧
    (g.nactiveRead = (sumActnum g.actnum : Int) →
      (reduce_to_one_layer g).nactiveRead = g.nactiveRead) := by
  have hact : reducedActnum g = g.actnum := by
    unfold reducedActnum
    rw [h1, show List.range 1 = [0] from rfl]
    have hlen : g.actnum.length = g.ncol * g.nrow := by
      rw [hwf.1, h1, Nat.mul_one]
    calc (List.range (g.ncol * g.nrow)).map (fun fidx =>
            [0].any fun kk => g.actnum.getD (fidx + g.ncol * g.nrow * kk) false)
        = (List.range (g.ncol * g.nrow)).map (fun fidx =>
            g.actnum.getD fidx false) := by
          apply List.map_congr_left
          intro fidx _
          simp [List.any]
      _ = g.actnum := by rw [← hlen]; exact map_getD_range g.actnum
  refine ⟨rfl, rfl, ?_, ?_, ?_⟩
  · show (1 : Nat) = g.nlay
    exact h1.symm
  · show reducedActnum g = g.actnum
    exact hact
  · intro hc
    show (sumActnum (reducedActnum g) : Int) = g.nactive
    rw [hact, ← hc]
    rfl

/-- Claim C8 (witness for the amended theorem): on the consistent one-layer
grid `g1` the reduction changes none of the stated fields. -/
theorem C8_reduce_idempotence_amended_witness :
    (reduce_to_one_layer g1).actnum = g1.actnum ∧
    (reduce_to_one_layer g1).nactiveRead = g1.nactiveRead :=
  ⟨(C8_reduce_idempotence_amended g1 (by decide) rfl).2.2.2.1,
   (C8_reduce_idempotence_amended g1 (by decide) rfl).2.2.2.2 (by decide)⟩

/-- Claim C9 (counterexample): a default-constructed `Grid()` does NOT read
an active-cell count of 60: `__init__` sets the dimensions 4 x 3 x 5 but
leaves the arrays unpopulated and `_nactive` at the sentinel -999, which is
what `nactive` returns. -/
theorem C9_default_grid_counterexample :
    defaultGrid.nactiveRead = -999 ∧ defaultGrid.nactiveRead ≠ 60 := by
  decide

/-- Claim C9 (amended): a default-constructed `Grid()` has dimensions
4 x 3 x 5 (60 cells in total) but no populated geometry or ACTNUM arrays;
its cached active-cell count is the sentinel -999, so reading `nactive`
immediately after construction yields -999, not 60.  Populated grids come
from file import. -/
theorem C9_default_grid_amended :
    defaultGrid.ncol = 4 ∧ defaultGrid.nrow = 3 ∧ defaultGrid.nlay = 5 ∧
    defaultGrid.ntotal = 60 ∧ defaultGrid.actnum = [] ∧
    defaultGrid.nactiveRead = -999 := by
  decide

/-- Claim C10: setting `props` raises `IndexError` as soon as some supplied
property has dimensions differing from the grid, leaving the previously
attached list unchanged (the returned state is the input state); when no
error is raised the list was assigned and every attached property matches
the grid dimensions. -/
theorem C10_props_setter_dimension_check (g : Grid)
    (plist : List GridProperty) :
    ((∃ p ∈ plist, p.ncol ≠ g.ncol ∨ p.nrow ≠ g.nrow ∨ p.nlay ≠ g.nlay) →
      propsSet g plist = (g, some PyErr.indexError)) ∧
    (∀ g2, propsSet g plist = (g2, none) →
      g2.props = plist ∧
      ∀ p ∈ g2.props, p.ncol = g.ncol ∧ p.nrow = g.nrow ∧ p.nlay = g.nlay) := by
  unfold propsSet
  by_cases h : plist.any (fun p =>
      p.ncol != g.ncol || p.nrow != g.nrow || p.nlay != g.nlay) = true
  · rw [if_pos h]
    constructor
    · intro _
      rfl
    · intro g2 hg2
      exact absurd (congrArg Prod.snd hg2) (by simp)
  · rw [if_neg h]
    constructor
    · rintro ⟨p, hp, hdiff⟩
      exfalso
      apply h
      rw [List.any_eq_true]
      refine ⟨p, hp, ?_⟩
      simp only [Bool.or_eq_true, bne_iff_ne]
      tauto
    · intro g2 hg2
      have hg2p : g2 = { g with props := plist } :=
        (congrArg Prod.fst hg2).symm
      rw [Bool.not_eq_true, List.any_eq_false] at h
      constructor
      · rw [hg2p]
      · intro p hp
        rw [hg2p] at hp
        have hb := h p hp
        simp only [Bool.or_eq_true, bne_iff_ne, not_or, not_not] at hb
        exact ⟨hb.1.1, hb.1.2, hb.2⟩

/-- Claim C10 (witness): a mismatching property (2 x 1 x 1 against the
1 x 1 x 1 grid `g1`) is rejected with `IndexError` and the state kept;
a matching one is attached. -/
theorem C10_props_setter_dimension_check_witness :
    propsSet g1 [{ ncol := 2, nrow := 1, nlay := 1, name := "P" }] =
      (g1, some PyErr.indexError) ∧
    ∀ g2, propsSet g1 [{ ncol := 1, nrow := 1, nlay := 1, name := "Q" }] =
        (g2, none) →
      g2.props = [{ ncol := 1, nrow := 1, nlay := 1, name := "Q" }] :=
  ⟨(C10_props_setter_dimension_check g1 _).1
      ⟨{ ncol := 2, nrow := 1, nlay := 1, name := "P" }, by decide, by decide⟩,
   fun g2 hg2 =>
     ((C10_props_setter_dimension_check g1 _).2 g2 hg2).1⟩

end XTGeo
